import Mathlib

/-!
Shallow embedding of `opennmt/models/sequence_tagger.py` (class `SequenceTagger`).

Tensors are embedded as nested lists of rationals: a batch of per-timestep
per-label score arrays is `List (List (List Rat))` (batch x time x labels),
integer id tensors are `List (List Int)`, length tensors are `List Nat`.

The TensorFlow framework primitives that the tagger delegates to
(`tf.layers.dense`, `tf.get_variable`, `tf.contrib.crf.crf_decode`,
`tf.nn.softmax`'s exponential, `tf.contrib.lookup.index_to_string_table_from_file`
followed by `lookup`, `tf.contrib.crf.crf_log_likelihood`, and
`opennmt.utils.losses.masked_sequence_loss`) are abstract function parameters
collected in a `Framework` record; the softmax and arg-max combinators, whose
axis structure the spec talks about, are embedded structurally with the
exponential left abstract.

Graph construction is side-effecting in the source (variable creation, table
creation); the embedding records these construction facts in the returned
`BuildResult` (which variable shapes were requested, which decode branch ran,
which table vocab sizes were used) alongside the values the Python function
returns.
-/

set_option autoImplicit false

abbrev Vec := List Rat

abbrev Mat := List Vec

/-- batch x time x labels score tensor -/
abbrev Tensor3 := List Mat

/-- batch x time integer id tensor -/
abbrev IntMat := List (List Int)

/-- A byte string (Python `bytes`), as a list of byte values. -/
abbrev Bytes := List Nat

/-- `tf.estimator.ModeKeys`. -/
inductive Mode where
  | TRAIN
  | EVAL
  | PREDICT
deriving DecidableEq

/-- Runtime errors surfaced by the embedded Python code. -/
inductive TagError where
  /-- Python `NameError`: a name is not bound in any enclosing scope. -/
  | nameError
  /-- missing file reported by the line-count utility -/
  | fileNotFound
  /-- missing key in the metadata mapping -/
  | keyError
  /-- attribute accessed before `_initialize` set it -/
  | attributeError
deriving DecidableEq

/-- `tf.cast(x, tf.int32)` on an integer value. -/
def castInt32 (x : Int) : Int := (x + 2 ^ 31) % 2 ^ 32 - 2 ^ 31

/-- `tf.cast(x, tf.int64)` on an integer value. -/
def castInt64 (x : Int) : Int := (x + 2 ^ 63) % 2 ^ 64 - 2 ^ 63

/-- `tf.reduce_mean` of a vector. -/
def reduce_mean (l : List Rat) : Rat := l.sum / l.length

/-- Softmax of one score vector, with the exponential `e` left abstract. -/
def softmaxVec (e : Rat → Rat) (v : Vec) : Vec :=
  let ex := v.map e
  ex.map (fun x => x / ex.sum)

/-- `tf.nn.softmax` on a batch x time x labels tensor: softmax along the last axis. -/
def softmax3 (e : Rat → Rat) (t : Tensor3) : Tensor3 :=
  t.map (fun m => m.map (softmaxVec e))

/-- Index of the first maximal entry (the tie-breaking of `tf.argmax`). -/
def argmaxGo : List Rat → Rat → Nat → Nat → Nat
  | [], _, _, best => best
  | x :: xs, bv, i, best =>
      if bv < x then argmaxGo xs x (i + 1) i else argmaxGo xs bv (i + 1) best

/-- `tf.argmax` over one score vector (int64 result; 0 on an empty vector). -/
def argmaxVec : List Rat → Int
  | [] => 0
  | x :: xs => Int.ofNat (argmaxGo xs x 1 0)

/-- `tf.argmax(t, axis=2)` on a batch x time x labels tensor. -/
def argmaxAxis2 (t : Tensor3) : IntMat :=
  t.map (fun m => m.map argmaxVec)

/-- The `onmt.inputters.Inputter` collaborator, reduced to the operations the
tagger calls on it inside `_build` and `_compute_loss`.  `F` is the type of a
raw feature batch. -/
structure Inputter (F : Type) where
  get_length : F → List Nat
  transform_data : F → Mode → String → Tensor3

/-- The `onmt.encoders.Encoder` collaborator: `encode(inputs, sequence_length,
mode)` returns outputs, an auxiliary state (unused here) and a possibly
adjusted output sequence length. -/
structure Encoder where
  encode : Tensor3 → List Nat → Mode → Tensor3 × Unit × List Nat

/-- The TensorFlow / OpenNMT framework primitives the tagger delegates to,
kept abstract.  `crfTransitions` is the transition variable that
`tf.contrib.crf.crf_log_likelihood` creates and uses internally when no
`transition_params` argument is passed (as in `_compute_loss`). -/
structure Framework where
  dense : Nat → Tensor3 → Tensor3
  getVariable : String → Nat × Nat → Mat
  crfDecode : Tensor3 → Mat → List Nat → IntMat
  softmaxExp : Rat → Rat
  revLookup : String → Nat → IntMat → List (List Bytes)
  crfTransitions : Mat
  crfLogLikelihood : Mat → Tensor3 → IntMat → List Nat → List Rat
  maskedSequenceLoss : Tensor3 → IntMat → List Nat → Rat

/-- The `SequenceTagger` object.  The first five fields are set by `__init__`;
`labels_vocabulary_file` and `num_labels` are `none` until `_initialize`
assigns them. -/
structure SequenceTagger (F : Type) where
  inputter : Inputter F
  encoder : Encoder
  labels_vocabulary_file_key : String
  crf_decoding : Bool
  name : String
  labels_vocabulary_file : Option String
  num_labels : Option Nat

/-- `SequenceTagger.__init__(inputter, encoder, labels_vocabulary_file_key,
crf_decoding=False, name="seqtagger")`: records the configuration; the
post-initialization attributes are not yet set. -/
def SequenceTagger.mkTagger {F : Type} (inputter : Inputter F) (encoder : Encoder)
    (labels_vocabulary_file_key : String) (crf_decoding : Bool) (name : String) :
    SequenceTagger F :=
  { inputter := inputter
    encoder := encoder
    labels_vocabulary_file_key := labels_vocabulary_file_key
    crf_decoding := crf_decoding
    name := name
    labels_vocabulary_file := none
    num_labels := none }

/-- Modelled from the spec: `count_lines` from `opennmt.utils.misc` is not under
`src/`; per the spec it returns the number of lines of the file, and it fails
when the file is absent, the failure propagating to the caller.  The file
system is a map from path to the list of lines. -/
def count_lines (fs : String → Option (List String)) (filename : String) :
    Except TagError Nat :=
  match fs filename with
  | none => Except.error TagError.fileNotFound
  | some lines => Except.ok lines.length

/-- `SequenceTagger._initialize(metadata)`: `self.inputter.initialize(metadata)`
(a side effect internal to the inputter object, whose reference is unchanged),
then `self.labels_vocabulary_file = metadata[self.labels_vocabulary_file_key]`
and `self.num_labels = count_lines(self.labels_vocabulary_file)`.  Attribute
assignment on `self` is embedded as returning the updated tagger. -/
def SequenceTagger.initModel {F : Type} (self : SequenceTagger F)
    (metadata : String → Option String) (fs : String → Option (List String)) :
    Except TagError (SequenceTagger F) :=
  match metadata self.labels_vocabulary_file_key with
  | none => Except.error TagError.keyError
  | some file =>
      match count_lines fs file with
      | Except.error e => Except.error e
      | Except.ok n =>
          Except.ok { self with labels_vocabulary_file := some file,
                                num_labels := some n }

/-- `SequenceTagger._get_features_length(features)`. -/
def SequenceTagger.get_features_length {F : Type} (self : SequenceTagger F)
    (features : F) : List Nat :=
  self.inputter.get_length features

/-- `SequenceTagger._get_labels_length(labels)`: the source body is
`return None`. -/
def SequenceTagger.get_labels_length {F : Type} (_self : SequenceTagger F)
    (_labels : IntMat) : Option (List Nat) :=
  none

/-- The record built by `_get_labels_builder`: it creates a forward (string to
id) lookup table from `self.labels_vocabulary_file` with
`vocab_size=self.num_labels`, a text-line dataset over the labels file, and a
padded-shapes function returning `[None]`. -/
structure LabelsBuilder where
  tableFile : String
  tableVocabSize : Nat
  datasetFile : String
  paddedShapes : List (Option Nat)

/-- `SequenceTagger._get_labels_builder(labels_file)`.  Accessing
`self.labels_vocabulary_file` / `self.num_labels` before `_initialize` raises. -/
def SequenceTagger.get_labels_builder {F : Type} (self : SequenceTagger F)
    (labels_file : String) : Except TagError LabelsBuilder :=
  match self.labels_vocabulary_file, self.num_labels with
  | some f, some n =>
      Except.ok { tableFile := f
                  tableVocabSize := n
                  datasetFile := labels_file
                  paddedShapes := [none] }
  | _, _ => Except.error TagError.attributeError

/-- The `predictions` dictionary built by `_build` outside training mode. -/
structure Predictions where
  length : List Nat
  labels : List (List Bytes)

/-- The value of `_build` together with the graph-construction facts: the unit
count passed to the dense layer, the shape requested for the `"transitions"`
variable (when created), which decode branch ran, the vocab size passed to the
reverse lookup table (when created), the sequence length passed to the
encoder, and the decoded id tensor before reverse lookup. -/
structure BuildResult where
  logits : Tensor3
  predictions : Option Predictions
  tags_id : Option IntMat
  denseUnits : Nat
  transitionsShape : Option (Nat × Nat)
  crfDecodeRun : Bool
  softmaxArgmaxRun : Bool
  revTableVocabSize : Option Nat
  encodeLengthArg : List Nat

/-- `SequenceTagger._build(features, labels, params, mode, config)`.  `labels`
and `params` are unused by the source body; `model_dir` is the `config.model_dir`
passed as `log_dir` to `transform_data`.  Accessing `self.num_labels` (for the
dense layer) or `self.labels_vocabulary_file` (for the reverse table) before
`_initialize` raises. -/
def SequenceTagger.build {F : Type} (fw : Framework) (self : SequenceTagger F)
    (features : F) (mode : Mode) (model_dir : String) :
    Except TagError BuildResult :=
  let length := self.get_features_length features
  let inputs := self.inputter.transform_data features mode model_dir
  let enc := self.encoder.encode inputs length mode
  let encoder_outputs := enc.1
  let encoder_sequence_length := enc.2.2
  match self.num_labels with
  | none => Except.error TagError.attributeError
  | some num_labels =>
      let logits := fw.dense num_labels encoder_outputs
      if mode ≠ Mode.TRAIN then
        match self.labels_vocabulary_file with
        | none => Except.error TagError.attributeError
        | some vocab_file =>
            if self.crf_decoding then
              let transition_params := fw.getVariable "transitions" (num_labels, num_labels)
              let tags32 := fw.crfDecode logits transition_params encoder_sequence_length
              let tags_id := tags32.map (fun r => r.map castInt64)
              Except.ok { logits := logits
                          predictions := some { length := encoder_sequence_length
                                                labels := fw.revLookup vocab_file num_labels tags_id }
                          tags_id := some tags_id
                          denseUnits := num_labels
                          transitionsShape := some (num_labels, num_labels)
                          crfDecodeRun := true
                          softmaxArgmaxRun := false
                          revTableVocabSize := some num_labels
                          encodeLengthArg := length }
            else
              let tags_prob := softmax3 fw.softmaxExp logits
              let tags_id := argmaxAxis2 tags_prob
              Except.ok { logits := logits
                          predictions := some { length := encoder_sequence_length
                                                labels := fw.revLookup vocab_file num_labels tags_id }
                          tags_id := some tags_id
                          denseUnits := num_labels
                          transitionsShape := none
                          crfDecodeRun := false
                          softmaxArgmaxRun := true
                          revTableVocabSize := some num_labels
                          encodeLengthArg := length }
      else
        Except.ok { logits := logits
                    predictions := none
                    tags_id := none
                    denseUnits := num_labels
                    transitionsShape := none
                    crfDecodeRun := false
                    softmaxArgmaxRun := false
                    revTableVocabSize := none
                    encodeLengthArg := length }

/-- The names bound in the scope of `_compute_loss` itself: its parameters and
its one local assignment. -/
def computeLossLocalNames : List String :=
  [ "self", "features", "labels", "outputs", "length"]

/-- `SequenceTagger._compute_loss(features, labels, outputs)`.  The non-CRF
branch is `return masked_sequence_loss(logits, labels, length)` where `logits`
is not among `computeLossLocalNames`: Python resolves it against the enclosing
module/global scope (`globals`), raising `NameError` when no such binding
exists. -/
def SequenceTagger.compute_loss {F : Type} (fw : Framework)
    (globals : String → Option Tensor3) (self : SequenceTagger F)
    (features : F) (labels : IntMat) (outputs : Tensor3) : Except TagError Rat :=
  let length := self.get_features_length features
  if self.crf_decoding then
    let log_likelihood :=
      fw.crfLogLikelihood fw.crfTransitions outputs
        (labels.map (fun r => r.map castInt32)) length
    Except.ok (reduce_mean (log_likelihood.map (fun x => -x)))
  else
    match globals "logits" with
    | none => Except.error TagError.nameError
    | some logits => Except.ok (fw.maskedSequenceLoss logits labels length)

/-- A single prediction record as consumed by `print_prediction`. -/
structure PredictionRecord where
  labels : List Bytes
  length : Nat

/-- `b" ".join(labels)` on byte strings. -/
def joinBytes (sep : Bytes) : List Bytes → Bytes
  | [] => []
  | [b] => b
  | b :: rest => b ++ sep ++ joinBytes sep rest

/-- `SequenceTagger.print_prediction(prediction, params=None, stream=None)`:
truncates the labels to the decoded length, joins them with the byte `b" "`
(byte 32), utf-8-decodes (`decode` is the abstract utf-8 decoder) and prints
one line to the stream.  The stream is the list of lines written so far; the
Python return value `None` is the `Unit` component. -/
def SequenceTagger.print_prediction (decode : Bytes → String)
    (prediction : PredictionRecord) (_params : Option Unit)
    (stream : List String) : Unit × List String :=
  let labels := prediction.labels.take prediction.length
  let sent := joinBytes [32] labels
  (Unit.unit, stream ++ [decode sent])

/-! ### Concrete fixtures used by the witness theorems -/

def unitInputter : Inputter Unit :=
  { get_length := fun _ => [2]
    transform_data := fun _ _ _ => [] }

def idEncoder : Encoder :=
  { encode := fun i l _ => (i, (), l) }

/-- An encoder that adjusts the sequence length (output length differs from the
length the inputter derives from the features). -/
def shortEncoder : Encoder :=
  { encode := fun i _ _ => (i, (), [1]) }

def trivFramework : Framework :=
  { dense := fun _ _ => []
    getVariable := fun _ _ => []
    crfDecode := fun _ _ _ => [ [0]]
    softmaxExp := fun x => x
    revLookup := fun _ _ t => t.map (fun r => r.map (fun _ => [65]))
    crfTransitions := []
    crfLogLikelihood := fun _ _ _ _ => [1, 3]
    maskedSequenceLoss := fun _ _ _ => 0 }

/-- An already-initialized tagger over trivial collaborators. -/
def tagCfg (crf : Bool) : SequenceTagger Unit :=
  { inputter := unitInputter
    encoder := idEncoder
    labels_vocabulary_file_key := "labels_vocabulary"
    crf_decoding := crf
    name := "seqtagger"
    labels_vocabulary_file := some "labels.txt"
    num_labels := some 2 }

/-- Like `tagCfg false` but with the length-adjusting encoder. -/
def shortTagger : SequenceTagger Unit :=
  { tagCfg false with encoder := shortEncoder }

def metadata0 : String → Option String := fun _ => some "labels.txt"

def fs0 : String → Option (List String) := fun _ => some [ "O", "B"]

def fsEmpty : String → Option (List String) := fun _ => none

def defaultBuildResult : BuildResult :=
  { logits := []
    predictions := none
    tags_id := none
    denseUnits := 0
    transitionsShape := none
    crfDecodeRun := false
    softmaxArgmaxRun := false
    revTableVocabSize := none
    encodeLengthArg := [] }

def buildResultOf (x : Except TagError BuildResult) : BuildResult :=
  match x with
  | Except.ok r => r
  | Except.error _ => defaultBuildResult

def isOkB (x : Except TagError BuildResult) : Bool :=
  match x with
  | Except.ok _ => true
  | Except.error _ => false

def numLabelsOf {F : Type} (x : Except TagError (SequenceTagger F)) : Option Nat :=
  match x with
  | Except.ok t => t.num_labels
  | Except.error _ => none

def taggerOf (x : Except TagError (SequenceTagger Unit)) : SequenceTagger Unit :=
  match x with
  | Except.ok t => t
  | Except.error _ => SequenceTagger.mkTagger unitInputter idEncoder "k" false "n"

/-! ### Helper characterizations of `_build` (shared by several proofs) -/

/-- In training mode an initialized tagger's `_build` returns the logits and no
predictions, running none of the decode-time graph construction. -/
theorem build_train_eq {F : Type} (fw : Framework) (self : SequenceTagger F)
    (features : F) (model_dir : String) (n : Nat) (hn : self.num_labels = some n) :
    SequenceTagger.build fw self features Mode.TRAIN model_dir =
      Except.ok
        { logits := fw.dense n
            ((self.encoder.encode
              (self.inputter.transform_data features Mode.TRAIN model_dir)
              (self.inputter.get_length features) Mode.TRAIN).1)
          predictions := none
          tags_id := none
          denseUnits := n
          transitionsShape := none
          crfDecodeRun := false
          softmaxArgmaxRun := false
          revTableVocabSize := none
          encodeLengthArg := self.inputter.get_length features } := by
  simp [SequenceTagger.build, SequenceTagger.get_features_length, hn]

/-! ### Claim theorems -/

/-- Claim C1: when `crf_decoding` is `False`, the non-CRF branch of
`_compute_loss` references the name `logits`, which is not bound in the
function's own scope; with no outer binding for that name, evaluating the
branch raises an unbound-name error (`NameError`) rather than returning a
loss, and the result never depends on the locally supplied `outputs`
parameter. -/
theorem c1_noncrf_loss_unbound_logits {F : Type} (fw : Framework)
    (globals : String → Option Tensor3) (self : SequenceTagger F) (features : F)
    (labels : IntMat) (outputs outputs' : Tensor3)
    (hcrf : self.crf_decoding = false) :
    "logits" ∉ computeLossLocalNames ∧
    (globals "logits" = none →
      SequenceTagger.compute_loss fw globals self features labels outputs =
        Except.error TagError.nameError) ∧
    SequenceTagger.compute_loss fw globals self features labels outputs =
      SequenceTagger.compute_loss fw globals self features labels outputs' := by
  refine ⟨by decide, ?_, ?_⟩
  · intro hg
    simp [SequenceTagger.compute_loss, hcrf, hg]
  · simp [SequenceTagger.compute_loss, hcrf]

theorem c1_noncrf_loss_unbound_logits_witness :
    (tagCfg false).crf_decoding = false ∧
    SequenceTagger.compute_loss trivFramework (fun _ => none) (tagCfg false) () [] [] =
      Except.error TagError.nameError :=
  ⟨rfl,
    (c1_noncrf_loss_unbound_logits trivFramework (fun _ => none) (tagCfg false)
      () [] [] [] rfl).2.1 rfl⟩

/-- Claim C2: when `crf_decoding` is `True`, `_compute_loss` computes the CRF
log-likelihood given the transition matrix, the integer-cast labels and the
sequence lengths rederived from the features via the inputter, and returns the
negative mean of the per-example log-likelihoods. -/
theorem c2_crf_loss_neg_mean_loglik {F : Type} (fw : Framework)
    (globals : String → Option Tensor3) (self : SequenceTagger F) (features : F)
    (labels : IntMat) (outputs : Tensor3)
    (hcrf : self.crf_decoding = true) :
    SequenceTagger.compute_loss fw globals self features labels outputs =
      Except.ok (reduce_mean
        ((fw.crfLogLikelihood fw.crfTransitions outputs
            (labels.map (fun r => r.map castInt32))
            (self.inputter.get_length features)).map (fun x => -x))) := by
  simp [SequenceTagger.compute_loss, SequenceTagger.get_features_length, hcrf]

theorem c2_crf_loss_neg_mean_loglik_witness :
    (tagCfg true).crf_decoding = true ∧
    SequenceTagger.compute_loss trivFramework (fun _ => none) (tagCfg true) () [] [] =
      Except.ok (reduce_mean
        ((trivFramework.crfLogLikelihood trivFramework.crfTransitions []
            (([] : IntMat).map (fun r => r.map castInt32))
            ((tagCfg true).inputter.get_length ())).map (fun x => -x))) :=
  ⟨rfl,
    c2_crf_loss_neg_mean_loglik trivFramework (fun _ => none) (tagCfg true)
      () [] [] rfl⟩

/-- Claim C5: for a prediction record whose labels array has at least
`length` entries, `print_prediction` writes exactly the first `length` labels,
joined by single spaces (byte 32) and utf-8-decoded, as one line appended to
the stream, and returns no value (`None`). -/
theorem c5_print_prediction_truncates (decode : Bytes → String)
    (p : PredictionRecord) (params : Option Unit) (stream : List String)
    (h : p.length ≤ p.labels.length) :
    (SequenceTagger.print_prediction decode p params stream).2 =
      stream ++ [decode (joinBytes [32] (p.labels.take p.length))] ∧
    (p.labels.take p.length).length = p.length ∧
    (SequenceTagger.print_prediction decode p params stream).1 = Unit.unit := by
  refine ⟨rfl, ?_, rfl⟩
  simp [List.length_take, Nat.min_eq_left h]

theorem c5_print_prediction_truncates_witness :
    ({ labels := [ [104], [105], [106]], length := 2 } : PredictionRecord).length ≤
      ({ labels := [ [104], [105], [106]], length := 2 } : PredictionRecord).labels.length ∧
    (SequenceTagger.print_prediction (fun _ => "hi")
        { labels := [ [104], [105], [106]], length := 2 } none []).2 =
      [] ++ [(fun _ : Bytes => "hi")
        (joinBytes [32] ([ [104], [105], [106]].take 2))] :=
  ⟨by decide,
    (c5_print_prediction_truncates (fun _ => "hi")
      { labels := [ [104], [105], [106]], length := 2 } none [] (by decide)).1⟩

/-- Claim C6: when the metadata mapping contains the labels-vocabulary key,
`_initialize` sets `num_labels` to the number of lines of the referenced
vocabulary file, and when the file is absent it fails by propagating the
line-count utility's error. -/
theorem c6_init_num_labels_is_line_count {F : Type} (self : SequenceTagger F)
    (metadata : String → Option String) (fs : String → Option (List String))
    (file : String)
    (hmeta : metadata self.labels_vocabulary_file_key = some file) :
    (∀ lines, fs file = some lines →
      numLabelsOf (SequenceTagger.initModel self metadata fs) = some lines.length) ∧
    (fs file = none →
      SequenceTagger.initModel self metadata fs =
        Except.error TagError.fileNotFound) := by
  constructor
  · intro lines hl
    simp [SequenceTagger.initModel, hmeta, count_lines, hl, numLabelsOf]
  · intro hl
    simp [SequenceTagger.initModel, hmeta, count_lines, hl]

theorem c6_init_num_labels_is_line_count_witness :
    metadata0 (tagCfg false).labels_vocabulary_file_key = some "labels.txt" ∧
    numLabelsOf (SequenceTagger.initModel (tagCfg false) metadata0 fs0) = some 2 ∧
    SequenceTagger.initModel (tagCfg false) metadata0 fsEmpty =
      Except.error TagError.fileNotFound :=
  ⟨rfl,
    (c6_init_num_labels_is_line_count (tagCfg false) metadata0 fs0 "labels.txt"
      rfl).1 [ "O", "B"] rfl,
    (c6_init_num_labels_is_line_count (tagCfg false) metadata0 fsEmpty "labels.txt"
      rfl).2 rfl⟩

/-- Claim C8: the configuration fields set at construction (`inputter`,
`encoder`, `labels_vocabulary_file_key`, `crf_decoding`) are never reassigned:
`_initialize` — the only operation that assigns attributes on `self` at all —
leaves all four unchanged, and `_build`, `_compute_loss` and
`print_prediction` contain no attribute assignment (their embeddings read the
tagger and return no updated tagger state). -/
theorem c8_config_fields_never_reassigned {F : Type} (self : SequenceTagger F)
    (metadata : String → Option String) (fs : String → Option (List String))
    (t' : SequenceTagger F)
    (hinit : SequenceTagger.initModel self metadata fs = Except.ok t') :
    t'.inputter = self.inputter ∧ t'.encoder = self.encoder ∧
    t'.labels_vocabulary_file_key = self.labels_vocabulary_file_key ∧
    t'.crf_decoding = self.crf_decoding := by
  unfold SequenceTagger.initModel count_lines at hinit
  split at hinit
  · exact absurd hinit (by simp)
  · split at hinit
    · exact absurd hinit (by simp)
    · injection hinit with h
      subst h
      exact ⟨rfl, rfl, rfl, rfl⟩

theorem c8_config_fields_never_reassigned_witness :
    SequenceTagger.initModel
        (SequenceTagger.mkTagger unitInputter idEncoder "labels_vocabulary" false "seqtagger")
        metadata0 fs0 =
      Except.ok (taggerOf (SequenceTagger.initModel
        (SequenceTagger.mkTagger unitInputter idEncoder "labels_vocabulary" false "seqtagger")
        metadata0 fs0)) ∧
    (taggerOf (SequenceTagger.initModel
        (SequenceTagger.mkTagger unitInputter idEncoder "labels_vocabulary" false "seqtagger")
        metadata0 fs0)).crf_decoding = false :=
  ⟨rfl,
    (c8_config_fields_never_reassigned
      (SequenceTagger.mkTagger unitInputter idEncoder "labels_vocabulary" false "seqtagger")
      metadata0 fs0 _ rfl).2.2.2⟩

/-- Claim C3: in training mode, `_build` produces no predictions (the
predictions component is `none`), and no decoding, reverse vocabulary lookup,
or transition-matrix creation is performed. -/
theorem c3_train_no_predictions {F : Type} (fw : Framework) (self : SequenceTagger F)
    (features : F) (model_dir : String) (n : Nat)
    (hn : self.num_labels = some n) :
    isOkB (SequenceTagger.build fw self features Mode.TRAIN model_dir) = true ∧
    (buildResultOf (SequenceTagger.build fw self features Mode.TRAIN model_dir)).predictions = none ∧
    (buildResultOf (SequenceTagger.build fw self features Mode.TRAIN model_dir)).transitionsShape = none ∧
    (buildResultOf (SequenceTagger.build fw self features Mode.TRAIN model_dir)).crfDecodeRun = false ∧
    (buildResultOf (SequenceTagger.build fw self features Mode.TRAIN model_dir)).softmaxArgmaxRun = false ∧
    (buildResultOf (SequenceTagger.build fw self features Mode.TRAIN model_dir)).revTableVocabSize = none := by
  rw [build_train_eq fw self features model_dir n hn]
  exact ⟨rfl, rfl, rfl, rfl, rfl, rfl⟩

theorem c3_train_no_predictions_witness :
    (tagCfg false).num_labels = some 2 ∧
    (buildResultOf (SequenceTagger.build trivFramework (tagCfg false) () Mode.TRAIN "dir")).predictions = none :=
  ⟨rfl, (c3_train_no_predictions trivFramework (tagCfg false) () "dir" 2 rfl).2.1⟩

/-- Claim C4: with `crf_decoding=False` outside training mode, the predicted
label-id sequence produced by `_build` equals the per-timestep (axis 2)
arg-max of a softmax over the logits. -/
theorem c4_noncrf_argmax_softmax {F : Type} (fw : Framework) (self : SequenceTagger F)
    (features : F) (mode : Mode) (model_dir : String) (r : BuildResult)
    (hmode : mode ≠ Mode.TRAIN) (hcrf : self.crf_decoding = false)
    (hb : SequenceTagger.build fw self features mode model_dir = Except.ok r) :
    r.tags_id = some (argmaxAxis2 (softmax3 fw.softmaxExp r.logits)) := by
  cases hn : self.num_labels with
  | none => simp [SequenceTagger.build, hn] at hb
  | some n =>
    cases hv : self.labels_vocabulary_file with
    | none => simp [SequenceTagger.build, hn, hv, hmode] at hb
    | some f =>
      simp [SequenceTagger.build, SequenceTagger.get_features_length,
        hn, hv, hmode, hcrf] at hb
      subst hb
      rfl

theorem c4_noncrf_argmax_softmax_witness :
    Mode.PREDICT ≠ Mode.TRAIN ∧
    (tagCfg false).crf_decoding = false ∧
    SequenceTagger.build trivFramework (tagCfg false) () Mode.PREDICT "dir" =
      Except.ok (buildResultOf (SequenceTagger.build trivFramework (tagCfg false) () Mode.PREDICT "dir")) ∧
    (buildResultOf (SequenceTagger.build trivFramework (tagCfg false) () Mode.PREDICT "dir")).tags_id =
      some (argmaxAxis2 (softmax3 trivFramework.softmaxExp
        (buildResultOf (SequenceTagger.build trivFramework (tagCfg false) () Mode.PREDICT "dir")).logits)) :=
  ⟨by decide, rfl, rfl,
    c4_noncrf_argmax_softmax trivFramework (tagCfg false) () Mode.PREDICT "dir" _
      (by decide) rfl rfl⟩

/-- Claim C7: every operation uses the same label-space size `num_labels`: the
dense projection has `num_labels` outputs, the CRF transition matrix (created
only when CRF decoding is enabled) has shape `num_labels` x `num_labels`, the
reverse (id-to-string) lookup table is built with vocab size `num_labels`, and
the forward (string-to-id) table of `_get_labels_builder` is built with vocab
size `num_labels`. -/
theorem c7_label_space_agreement {F : Type} (fw : Framework) (self : SequenceTagger F)
    (features : F) (mode : Mode) (model_dir : String) (labels_file : String)
    (n : Nat) (r : BuildResult) (lb : LabelsBuilder)
    (hn : self.num_labels = some n)
    (hb : SequenceTagger.build fw self features mode model_dir = Except.ok r)
    (hlb : SequenceTagger.get_labels_builder self labels_file = Except.ok lb) :
    r.denseUnits = n ∧
    (∀ s, r.transitionsShape = some s → s = (n, n) ∧ self.crf_decoding = true) ∧
    (∀ v, r.revTableVocabSize = some v → v = n) ∧
    lb.tableVocabSize = n := by
  have hlbn : lb.tableVocabSize = n := by
    cases hv : self.labels_vocabulary_file with
    | none => simp [SequenceTagger.get_labels_builder, hv, hn] at hlb
    | some f =>
      simp [SequenceTagger.get_labels_builder, hv, hn] at hlb
      subst hlb
      rfl
  by_cases hm : mode = Mode.TRAIN
  · subst hm
    rw [build_train_eq fw self features model_dir n hn] at hb
    injection hb with h
    subst h
    refine ⟨rfl, ?_, ?_, hlbn⟩
    · intro s hs; exact absurd hs (by simp)
    · intro v hv'; exact absurd hv' (by simp)
  · cases hv : self.labels_vocabulary_file with
    | none => simp [SequenceTagger.build, hn, hv, hm] at hb
    | some f =>
      cases hc : self.crf_decoding with
      | true =>
        simp [SequenceTagger.build, SequenceTagger.get_features_length,
          hn, hv, hm, hc] at hb
        subst hb
        refine ⟨rfl, ?_, ?_, hlbn⟩
        · intro s hs
          injection hs with h
          exact ⟨h.symm, rfl⟩
        · intro v hv'
          injection hv' with h
          exact h.symm
      | false =>
        simp [SequenceTagger.build, SequenceTagger.get_features_length,
          hn, hv, hm, hc] at hb
        subst hb
        refine ⟨rfl, ?_, ?_, hlbn⟩
        · intro s hs
          exact absurd hs (by simp)
        · intro v hv'
          injection hv' with h
          exact h.symm

theorem c7_label_space_agreement_witness :
    (tagCfg true).num_labels = some 2 ∧
    SequenceTagger.build trivFramework (tagCfg true) () Mode.PREDICT "dir" =
      Except.ok (buildResultOf (SequenceTagger.build trivFramework (tagCfg true) () Mode.PREDICT "dir")) ∧
    SequenceTagger.get_labels_builder (tagCfg true) "train.labels" =
      Except.ok { tableFile := "labels.txt"
                  tableVocabSize := 2
                  datasetFile := "train.labels"
                  paddedShapes := [none] } ∧
    (buildResultOf (SequenceTagger.build trivFramework (tagCfg true) () Mode.PREDICT "dir")).denseUnits = 2 :=
  ⟨rfl, rfl, rfl,
    (c7_label_space_agreement trivFramework (tagCfg true) () Mode.PREDICT "dir"
      "train.labels" 2 _ _ rfl rfl rfl).1⟩

/-- Claim C9: `_get_labels_length` returns `None` for every labels input, and
the sequence length `_build` hands to the encoder comes from the features via
the inputter. -/
theorem c9_labels_length_none {F : Type} (fw : Framework) (self : SequenceTagger F)
    (features : F) (mode : Mode) (model_dir : String) (r : BuildResult)
    (labels : IntMat)
    (hb : SequenceTagger.build fw self features mode model_dir = Except.ok r) :
    SequenceTagger.get_labels_length self labels = none ∧
    r.encodeLengthArg = self.inputter.get_length features := by
  refine ⟨rfl, ?_⟩
  cases hn : self.num_labels with
  | none => simp [SequenceTagger.build, hn] at hb
  | some n =>
    by_cases hm : mode = Mode.TRAIN
    · subst hm
      rw [build_train_eq fw self features model_dir n hn] at hb
      injection hb with h
      subst h
      rfl
    · cases hv : self.labels_vocabulary_file with
      | none => simp [SequenceTagger.build, hn, hv, hm] at hb
      | some f =>
        cases hc : self.crf_decoding with
        | true =>
          simp [SequenceTagger.build, SequenceTagger.get_features_length,
            hn, hv, hm, hc] at hb
          subst hb
          rfl
        | false =>
          simp [SequenceTagger.build, SequenceTagger.get_features_length,
            hn, hv, hm, hc] at hb
          subst hb
          rfl

theorem c9_labels_length_none_witness :
    SequenceTagger.build trivFramework (tagCfg false) () Mode.TRAIN "dir" =
      Except.ok (buildResultOf (SequenceTagger.build trivFramework (tagCfg false) () Mode.TRAIN "dir")) ∧
    SequenceTagger.get_labels_length (tagCfg false) [] = none :=
  ⟨rfl,
    (c9_labels_length_none trivFramework (tagCfg false) () Mode.TRAIN "dir" _ [] rfl).1⟩

/-- Claim C10: outside training mode, the `length` field of the prediction
record produced by `_build` is the encoder's output sequence length (the
possibly adjusted length returned by `encode`), not the length the inputter
derives from the features; the two lengths can differ. -/
theorem c10_prediction_length_from_encoder {F : Type} (fw : Framework)
    (self : SequenceTagger F) (features : F) (mode : Mode) (model_dir : String)
    (r : BuildResult) (p : Predictions)
    (hb : SequenceTagger.build fw self features mode model_dir = Except.ok r)
    (hp : r.predictions = some p) :
    p.length =
      (self.encoder.encode (self.inputter.transform_data features mode model_dir)
        (self.inputter.get_length features) mode).2.2 ∧
    ∃ (fw' : Framework) (self' : SequenceTagger Unit) (r' : BuildResult) (p' : Predictions),
      SequenceTagger.build fw' self' () Mode.PREDICT "dir" = Except.ok r' ∧
      r'.predictions = some p' ∧
      p'.length ≠ self'.inputter.get_length () := by
  constructor
  · cases hn : self.num_labels with
    | none => simp [SequenceTagger.build, hn] at hb
    | some n =>
      by_cases hm : mode = Mode.TRAIN
      · subst hm
        rw [build_train_eq fw self features model_dir n hn] at hb
        injection hb with h
        subst h
        exact absurd hp (by simp)
      · cases hv : self.labels_vocabulary_file with
        | none => simp [SequenceTagger.build, hn, hv, hm] at hb
        | some f =>
          cases hc : self.crf_decoding with
          | true =>
            simp [SequenceTagger.build, SequenceTagger.get_features_length,
              hn, hv, hm, hc] at hb
            subst hb
            simp only [Option.some.injEq] at hp
            subst hp
            rfl
          | false =>
            simp [SequenceTagger.build, SequenceTagger.get_features_length,
              hn, hv, hm, hc] at hb
            subst hb
            simp only [Option.some.injEq] at hp
            subst hp
            rfl
  · exact ⟨trivFramework, shortTagger, _, _, rfl, rfl, by decide⟩

theorem c10_prediction_length_from_encoder_witness :
    SequenceTagger.build trivFramework (tagCfg false) () Mode.PREDICT "dir" =
      Except.ok (buildResultOf (SequenceTagger.build trivFramework (tagCfg false) () Mode.PREDICT "dir")) ∧
    (buildResultOf (SequenceTagger.build trivFramework (tagCfg false) () Mode.PREDICT "dir")).predictions =
      some { length := [2], labels := [] } ∧
    ({ length := [2], labels := [] } : Predictions).length =
      ((tagCfg false).encoder.encode ((tagCfg false).inputter.transform_data () Mode.PREDICT "dir")
        ((tagCfg false).inputter.get_length ()) Mode.PREDICT).2.2 :=
  ⟨rfl, rfl,
    (c10_prediction_length_from_encoder trivFramework (tagCfg false) () Mode.PREDICT
      "dir" _ _ rfl rfl).1⟩
